import Mathlib

/-!
Verification development for the `osv` Rust client library (`src/lib.rs`).

The library is a typed client for the OSV vulnerability database HTTP API.
We shallowly embed the serde data model (the `Vulnerability` entity graph,
the `Request`/`Response` wire shapes) and the protocol logic of `query`,
`query_package`, `query_commit` and `vulnerability` over an explicit
status/body transport outcome, and prove the specified serialization and
error-mapping properties.

JSON documents are modelled by an explicit abstract syntax tree `Osv.Json`;
serde's derived serializers become explicit encoder functions (field order
follows the Rust struct declaration order, `skip_serializing_if =
"Option::is_none"` becomes conditional key emission) and the derived
deserializers become explicit decoder functions (field lookup by key,
unknown keys ignored, an explicit JSON `null` for an `Option` field decodes
to `none`, as serde's `Option` deserializer does).
-/

namespace Osv

/-- Abstract syntax tree of JSON values, standing for `serde_json::Value`.
Numbers are modelled as integers; no claim depends on numeric contents. -/
inductive Json where
  | null
  | bool (b : Bool)
  | num (n : Int)
  | str (s : String)
  | arr (elems : List Json)
  | obj (fields : List (String × Json))

/-- Key lookup in a JSON object's field list (first occurrence wins). -/
def jlookup : List (String × Json) → String → Option Json
  | [], _ => none
  | (k, v) :: rest, key => if k = key then some v else jlookup rest key

/-- Field access on a JSON value: only objects have fields. -/
def getField : Json → String → Option Json
  | .obj fs, key => jlookup fs key
  | _, _ => none

/-- Decode a JSON string. -/
def decStr : Json → Option String
  | .str s => some s
  | _ => none

/-- Decode every element of a JSON array with `dec`; all must succeed. -/
def decElems (dec : Json → Option α) : List Json → Option (List α)
  | [] => some []
  | j :: js =>
    match dec j, decElems dec js with
    | some x, some xs => some (x :: xs)
    | _, _ => none

/-- Decode a JSON array of values. -/
def decArr (dec : Json → Option α) : Json → Option (List α)
  | .arr js => decElems dec js
  | _ => none

/-- A required serde field: must be present and decode. -/
def reqField (j : Json) (k : String) (dec : Json → Option α) : Option α :=
  match getField j k with
  | some v => dec v
  | none => none

/-- Whether a JSON value is the literal `null`. -/
def Json.isNull : Json → Bool
  | .null => true
  | _ => false

/-- An optional serde field (`Option<T>`): an absent key or an explicit
`null` decodes to `none`; a present non-null value must decode with `dec`. -/
def optionalField (j : Json) (k : String) (dec : Json → Option α) : Option (Option α) :=
  match getField j k with
  | none => some none
  | some v => if v.isNull then some none else (dec v).map some

/-- Conditional key emission for a `skip_serializing_if = "Option::is_none"`
field: an absent option contributes no key at all. -/
def encOpt (k : String) : Option Json → List (String × Json)
  | none => []
  | some v => [(k, v)]

/-- The package ecosystem enum of `src/lib.rs` (closed serde enum: the
derive has renames but no catch-all variant). -/
inductive Ecosystem where
  | Go
  | Npm
  | OssFuzz
  | PyPI
  | RubyGems
  | CratesIo
  | Packagist
  | Maven
  | NuGet
  | Linux
  | Debian
  | Hex
  | Android
  | GitHubActions
  | Pub
deriving DecidableEq

/-- The serde wire tag of each `Ecosystem` variant (`#[serde(rename = ...)]`
on `Npm`, `OssFuzz`, `CratesIo` and `GitHubActions`; the variant name
itself otherwise). -/
def ecosystemTag : Ecosystem → String
  | .Go => "Go"
  | .Npm => "npm"
  | .OssFuzz => "OSS-Fuzz"
  | .PyPI => "PyPI"
  | .RubyGems => "RubyGems"
  | .CratesIo => "crates.io"
  | .Packagist => "Packagist"
  | .Maven => "Maven"
  | .NuGet => "NuGet"
  | .Linux => "Linux"
  | .Debian => "Debian"
  | .Hex => "Hex"
  | .Android => "Android"
  | .GitHubActions => "GitHub Actions"
  | .Pub => "Pub"

/-- All `Ecosystem` variants, in declaration order. -/
def allEcosystems : List Ecosystem :=
  [.Go, .Npm, .OssFuzz, .PyPI, .RubyGems, .CratesIo, .Packagist, .Maven,
   .NuGet, .Linux, .Debian, .Hex, .Android, .GitHubActions, .Pub]

/-- The set of known ecosystem wire tags. -/
def knownEcosystemTags : List String := allEcosystems.map ecosystemTag

/-- Serialize an `Ecosystem` (unit enum variant → JSON string of its tag). -/
def encodeEcosystem (e : Ecosystem) : Json := .str (ecosystemTag e)

/-- Deserialize an ecosystem tag string: the derived (closed) deserializer
accepts exactly the known variant tags and fails on anything else. -/
def decodeEcosystemTag (s : String) : Option Ecosystem :=
  allEcosystems.find? (fun e => ecosystemTag e == s)

/-- Deserialize an `Ecosystem` from JSON (must be a known tag string). -/
def decodeEcosystem (j : Json) : Option Ecosystem :=
  (decStr j).bind decodeEcosystemTag

/-- `Package` of `src/lib.rs`: name, ecosystem and an optional purl with
`skip_serializing_if = "Option::is_none"`. -/
structure Package where
  name : String
  ecosystem : Ecosystem
  purl : Option String
deriving DecidableEq

/-- Serialize a `Package` (serde field order: name, ecosystem, purl). -/
def encodePackage (p : Package) : Json :=
  .obj ([("name", .str p.name), ("ecosystem", encodeEcosystem p.ecosystem)]
    ++ encOpt "purl" (p.purl.map .str))

/-- Deserialize a `Package`. -/
def decodePackage (j : Json) : Option Package := do
  let name ← reqField j "name" decStr
  let eco ← reqField j "ecosystem" decodeEcosystem
  let purl ← optionalField j "purl" decStr
  pure ⟨name, eco, purl⟩

/-- `RangeType` of `src/lib.rs`, `#[serde(rename_all = "UPPERCASE")]`. -/
inductive RangeType where
  | Unspecified
  | Git
  | Semver
  | Ecosystem
deriving DecidableEq

/-- Wire tag of a `RangeType` variant (upper-cased variant name). -/
def rangeTypeTag : RangeType → String
  | .Unspecified => "UNSPECIFIED"
  | .Git => "GIT"
  | .Semver => "SEMVER"
  | .Ecosystem => "ECOSYSTEM"

/-- Serialize a `RangeType`. -/
def encodeRangeType (t : RangeType) : Json := .str (rangeTypeTag t)

/-- Deserialize a `RangeType` (closed enum: known tags only). -/
def decodeRangeType : Json → Option RangeType
  | .str s =>
    if s = "UNSPECIFIED" then some .Unspecified
    else if s = "GIT" then some .Git
    else if s = "SEMVER" then some .Semver
    else if s = "ECOSYSTEM" then some .Ecosystem
    else none
  | _ => none

/-- `Event` of `src/lib.rs`: newtype variants carrying a string,
`#[serde(rename_all = "lowercase")]`, externally tagged, so each value
serializes as a single-key object. -/
inductive Event where
  | Introduced (version : String)
  | Fixed (version : String)
  | Limit (version : String)
deriving DecidableEq

/-- Serialize an `Event` as `{"<lowercase variant>": "<carried string>"}`. -/
def encodeEvent : Event → Json
  | .Introduced s => .obj [("introduced", .str s)]
  | .Fixed s => .obj [("fixed", .str s)]
  | .Limit s => .obj [("limit", .str s)]

/-- Deserialize an `Event` (externally tagged: a one-entry object whose key
selects the variant and whose value is the carried string). -/
def decodeEvent : Json → Option Event
  | .obj [(k, v)] =>
    if k = "introduced" then (decStr v).map .Introduced
    else if k = "fixed" then (decStr v).map .Fixed
    else if k = "limit" then (decStr v).map .Limit
    else none
  | _ => none

/-- `Range` of `src/lib.rs`: `range_type` is renamed to wire key `type`;
`repo` is an optional skipped-if-none field; `events` is required. -/
structure Range where
  range_type : RangeType
  repo : Option String
  events : List Event
deriving DecidableEq

/-- Serialize a `Range` (wire keys in field order: type, repo, events). -/
def encodeRange (r : Range) : Json :=
  .obj ([("type", encodeRangeType r.range_type)]
    ++ encOpt "repo" (r.repo.map .str)
    ++ [("events", .arr (r.events.map encodeEvent))])

/-- Deserialize a `Range`. -/
def decodeRange (j : Json) : Option Range := do
  let t ← reqField j "type" decodeRangeType
  let repo ← optionalField j "repo" decStr
  let events ← reqField j "events" (decArr decodeEvent)
  pure ⟨t, repo, events⟩

/-- `Affected` of `src/lib.rs`: a required package and ranges, optional
version list and optional opaque `serde_json::Value` payloads, all optional
fields skipped when `None`. -/
structure Affected where
  package : Package
  ranges : List Range
  versions : Option (List String)
  ecosystem_specific : Option Json
  database_specific : Option Json

/-- Serialize a list of strings as a JSON array of strings. -/
def encodeStrList (xs : List String) : Json := .arr (xs.map .str)

/-- Serialize an `Affected` (field order: package, ranges, versions,
ecosystem_specific, database_specific). -/
def encodeAffected (a : Affected) : Json :=
  .obj ([("package", encodePackage a.package),
         ("ranges", .arr (a.ranges.map encodeRange))]
    ++ encOpt "versions" (a.versions.map encodeStrList)
    ++ encOpt "ecosystem_specific" a.ecosystem_specific
    ++ encOpt "database_specific" a.database_specific)

/-- Deserialize an `Affected`. The opaque payload fields decode as raw
`serde_json::Value` (identity on the JSON tree). -/
def decodeAffected (j : Json) : Option Affected := do
  let pkg ← reqField j "package" decodePackage
  let ranges ← reqField j "ranges" (decArr decodeRange)
  let versions ← optionalField j "versions" (decArr decStr)
  let eco ← optionalField j "ecosystem_specific" some
  let db ← optionalField j "database_specific" some
  pure ⟨pkg, ranges, versions, eco, db⟩

/-- `ReferenceType` of `src/lib.rs`, `rename_all = "UPPERCASE"` with
`Undefined` explicitly renamed to `NONE`. -/
inductive ReferenceType where
  | Undefined
  | Web
  | Advisory
  | Report
  | Fix
  | Package
  | Article
deriving DecidableEq

/-- Wire tag of a `ReferenceType` variant. -/
def referenceTypeTag : ReferenceType → String
  | .Undefined => "NONE"
  | .Web => "WEB"
  | .Advisory => "ADVISORY"
  | .Report => "REPORT"
  | .Fix => "FIX"
  | .Package => "PACKAGE"
  | .Article => "ARTICLE"

/-- Serialize a `ReferenceType`. -/
def encodeReferenceType (t : ReferenceType) : Json := .str (referenceTypeTag t)

/-- Deserialize a `ReferenceType` (closed enum: known tags only). -/
def decodeReferenceType : Json → Option ReferenceType
  | .str s =>
    if s = "NONE" then some .Undefined
    else if s = "WEB" then some .Web
    else if s = "ADVISORY" then some .Advisory
    else if s = "REPORT" then some .Report
    else if s = "FIX" then some .Fix
    else if s = "PACKAGE" then some .Package
    else if s = "ARTICLE" then some .Article
    else none
  | _ => none

/-- `Reference` of `src/lib.rs`: `reference_type` has wire key `type`. -/
structure Reference where
  reference_type : ReferenceType
  url : String
deriving DecidableEq

/-- Serialize a `Reference`. -/
def encodeReference (r : Reference) : Json :=
  .obj [("type", encodeReferenceType r.reference_type), ("url", .str r.url)]

/-- Deserialize a `Reference`. -/
def decodeReference (j : Json) : Option Reference := do
  let t ← reqField j "type" decodeReferenceType
  let url ← reqField j "url" decStr
  pure ⟨t, url⟩

/-- `SeverityType` of `src/lib.rs`: variants renamed `UNSPECIFIED` and
`CVSS_V3`. -/
inductive SeverityType where
  | Unspecified
  | CVSSv3
deriving DecidableEq

/-- Wire tag of a `SeverityType` variant. -/
def severityTypeTag : SeverityType → String
  | .Unspecified => "UNSPECIFIED"
  | .CVSSv3 => "CVSS_V3"

/-- Serialize a `SeverityType`. -/
def encodeSeverityType (t : SeverityType) : Json := .str (severityTypeTag t)

/-- Deserialize a `SeverityType` (closed enum: known tags only). -/
def decodeSeverityType : Json → Option SeverityType
  | .str s =>
    if s = "UNSPECIFIED" then some .Unspecified
    else if s = "CVSS_V3" then some .CVSSv3
    else none
  | _ => none

/-- `Severity` of `src/lib.rs`: `severity_type` has wire key `type`. -/
structure Severity where
  severity_type : SeverityType
  score : String
deriving DecidableEq

/-- Serialize a `Severity`. -/
def encodeSeverity (s : Severity) : Json :=
  .obj [("type", encodeSeverityType s.severity_type), ("score", .str s.score)]

/-- Deserialize a `Severity`. -/
def decodeSeverity (j : Json) : Option Severity := do
  let t ← reqField j "type" decodeSeverityType
  let score ← reqField j "score" decStr
  pure ⟨t, score⟩

/-- `Credit` of `src/lib.rs`: a name and a required contact list. -/
structure Credit where
  name : String
  contact : List String
deriving DecidableEq

/-- Serialize a `Credit`. -/
def encodeCredit (c : Credit) : Json :=
  .obj [("name", .str c.name), ("contact", encodeStrList c.contact)]

/-- Deserialize a `Credit`. -/
def decodeCredit (j : Json) : Option Credit := do
  let name ← reqField j "name" decStr
  let contact ← reqField j "contact" (decArr decStr)
  pure ⟨name, contact⟩

/-- Model of `chrono::DateTime<Utc>`: the library only moves timestamps
between their RFC3339 wire string and the parsed value, so a timestamp is
modelled by its RFC3339 rendering; chrono serializes it as a JSON string
and parses the same string back to an equal value. -/
structure Timestamp where
  rfc3339 : String
deriving DecidableEq

/-- Serialize a `Timestamp` (chrono: RFC3339 string). -/
def encodeTimestamp (t : Timestamp) : Json := .str t.rfc3339

/-- Deserialize a `Timestamp` (chrono: from a JSON string). -/
def decodeTimestamp (j : Json) : Option Timestamp :=
  (decStr j).map Timestamp.mk

/-- `Vulnerability` of `src/lib.rs`: the root OSV exchange entity. Every
`Option` field carries `skip_serializing_if = "Option::is_none"`. -/
structure Vulnerability where
  schema_version : String
  id : String
  published : Timestamp
  modified : Timestamp
  withdrawn : Option Timestamp
  aliases : Option (List String)
  related : Option (List String)
  summary : Option String
  details : Option String
  affected : List Affected
  references : Option (List Reference)
  severity : Option (List Severity)
  credits : Option (List Credit)
  database_specific : Option Json

/-- The serialized field list of a `Vulnerability`, in declaration order,
with absent optional fields contributing no key. -/
def vulnerabilityFields (v : Vulnerability) : List (String × Json) :=
  [("schema_version", .str v.schema_version),
   ("id", .str v.id),
   ("published", encodeTimestamp v.published),
   ("modified", encodeTimestamp v.modified)]
  ++ encOpt "withdrawn" (v.withdrawn.map encodeTimestamp)
  ++ encOpt "aliases" (v.aliases.map encodeStrList)
  ++ encOpt "related" (v.related.map encodeStrList)
  ++ encOpt "summary" (v.summary.map Json.str)
  ++ encOpt "details" (v.details.map Json.str)
  ++ [("affected", Json.arr (v.affected.map encodeAffected))]
  ++ encOpt "references" (v.references.map (fun rs => Json.arr (rs.map encodeReference)))
  ++ encOpt "severity" (v.severity.map (fun ss => Json.arr (ss.map encodeSeverity)))
  ++ encOpt "credits" (v.credits.map (fun cs => Json.arr (cs.map encodeCredit)))
  ++ encOpt "database_specific" v.database_specific

/-- Serialize a `Vulnerability`. -/
def encodeVulnerability (v : Vulnerability) : Json :=
  .obj (vulnerabilityFields v)

/-- Deserialize a `Vulnerability` (unknown keys ignored; optional fields
absent-or-null decode to `none`). -/
def decodeVulnerability (j : Json) : Option Vulnerability := do
  let sv ← reqField j "schema_version" decStr
  let vid ← reqField j "id" decStr
  let pubT ← reqField j "published" decodeTimestamp
  let modT ← reqField j "modified" decodeTimestamp
  let wd ← optionalField j "withdrawn" decodeTimestamp
  let al ← optionalField j "aliases" (decArr decStr)
  let rel ← optionalField j "related" (decArr decStr)
  let sm ← optionalField j "summary" decStr
  let dt ← optionalField j "details" decStr
  let aff ← reqField j "affected" (decArr decodeAffected)
  let refs ← optionalField j "references" (decArr decodeReference)
  let sev ← optionalField j "severity" (decArr decodeSeverity)
  let cred ← optionalField j "credits" (decArr decodeCredit)
  let db ← optionalField j "database_specific" some
  pure ⟨sv, vid, pubT, modT, wd, al, rel, sm, dt, aff, refs, sev, cred, db⟩

/-- `Request` of `src/lib.rs`: the two accepted query payloads,
`#[serde(untagged)]` (no discriminator key on the wire). Only serialization
is derived in the source, matching the client's use. -/
inductive Request where
  | CommitQuery (commit : String)
  | PackageQuery (version : String) (package : Package)

/-- Serialize a `Request`: untagged, so the variant's fields are emitted
directly as the outer object (field order: `commit`; `version`, `package`). -/
def encodeRequest : Request → Json
  | .CommitQuery c => .obj [("commit", .str c)]
  | .PackageQuery v p => .obj [("version", .str v), ("package", encodePackage p)]

/-- `Response` of `src/lib.rs`: an untagged two-variant enum. serde tries
the variants in declaration order: first the `Vulnerabilities` struct shape
(an object with a decodable `vulns` array, unknown keys ignored), then the
catch-all `NoResult(serde_json::Value)`, which accepts any JSON value. -/
inductive Response where
  | Vulnerabilities (vulns : List Vulnerability)
  | NoResult (value : Json)

/-- Deserialize a `Response` from a (well-formed) JSON body. The untagged
derive makes this total on JSON values: whenever the `vulns` shape does not
decode, the `NoResult` fallback swallows the raw value. -/
def decodeResponse (j : Json) : Response :=
  match reqField j "vulns" (decArr decodeVulnerability) with
  | some vs => .Vulnerabilities vs
  | none => .NoResult j

/-- `ApiError` of `src/lib.rs`. The payloads of the foreign-error variants
(url::ParseError, serde_json::Error, surf::Error) are opaque and dropped;
`NotFound` keeps its identifier string. -/
inductive ApiError where
  | NotFound (ident : String)
  | InvalidUrl
  | SerializationError
  | RequestFailed
  | Unexpected
deriving DecidableEq

/-- The HTTP status and parsed JSON body the transport hands back on a
completed exchange. The status is the numeric code (`StatusCode::NotFound`
is 404). -/
structure HttpResponse where
  status : Nat
  body : Json

/-- The identifier string `query` builds for a `NotFound` error, from
`src/lib.rs` lines 430-440: the package name (never the version) for a
package query, the commit hash for a commit query, backtick-quoted. -/
def notFoundIdent : Request → String
  | .PackageQuery _ pkg => "package - `" ++ pkg.name ++ "`"
  | .CommitQuery c => "commit - `" ++ c ++ "`"

/-- `query` of `src/lib.rs` (lines 423-451), modelled from the point where
the transport returned an HTTP response: a 404 status short-circuits to
`NotFound` (the body is never decoded); any other status decodes the body
as a `Response`, mapping the `Vulnerabilities` shape to `Ok(Some(vulns))`
and everything else to `Ok(None)`. -/
def query (q : Request) (resp : HttpResponse) :
    Except ApiError (Option (List Vulnerability)) :=
  if resp.status = 404 then
    .error (.NotFound (notFoundIdent q))
  else
    match decodeResponse resp.body with
    | .Vulnerabilities vs => .ok (some vs)
    | .NoResult _ => .ok none

/-- `query_package` of `src/lib.rs` (lines 482-497): builds the
`PackageQuery` request with `purl: None` and delegates to `query`. -/
def query_package (name version : String) (ecosystem : Ecosystem)
    (resp : HttpResponse) : Except ApiError (Option (List Vulnerability)) :=
  query (.PackageQuery version ⟨name, ecosystem, none⟩) resp

/-- `query_commit` of `src/lib.rs` (lines 523-528): builds the
`CommitQuery` request and delegates to `query`. -/
def query_commit (commit : String) (resp : HttpResponse) :
    Except ApiError (Option (List Vulnerability)) :=
  query (.CommitQuery commit) resp

/-- Outcome of the fetch performed by `vulnerability`: composing the URL for
the id can fail (`url::ParseError`), the transport call itself can fail
(`surf::Error`), or an HTTP response with status and body comes back. A
body that is not decodable JSON is reported by surf's `body_json` as a
`surf::Error`, which the source converts to `RequestFailed` via its `From`
impl; we fold that case into the body decoder failing. -/
inductive FetchOutcome where
  | urlJoinFailed
  | transportFailed
  | response (status : Nat) (body : Json)

/-- `vulnerability` of `src/lib.rs` (lines 544-554): a failed URL join is
`InvalidUrl`; a transport failure is `RequestFailed`; a 404 status is
`NotFound` carrying exactly the requested id; otherwise the body must
decode as a `Vulnerability` (a failure surfaces through surf's error type,
hence `RequestFailed`). -/
def vulnerability (vuln_id : String) (outcome : FetchOutcome) :
    Except ApiError Vulnerability :=
  match outcome with
  | .urlJoinFailed => .error .InvalidUrl
  | .transportFailed => .error .RequestFailed
  | .response status body =>
    if status = 404 then
      .error (.NotFound vuln_id)
    else
      match decodeVulnerability body with
      | some v => .ok v
      | none => .error .RequestFailed

/-- Opaque-payload sanity for an `Affected`: neither raw JSON payload is the
literal JSON `null` (serde's `Option<serde_json::Value>` turns a serialized
`null` back into `None`, so `Some(Value::Null)` cannot round-trip). -/
def AffectedOk (a : Affected) : Prop :=
  a.ecosystem_specific ≠ some .null ∧ a.database_specific ≠ some .null

/-- Opaque-payload sanity for a `Vulnerability` and all its `Affected`
entries. -/
def VulnerabilityOk (v : Vulnerability) : Prop :=
  v.database_specific ≠ some .null ∧ ∀ a ∈ v.affected, AffectedOk a

/-- An `Affected` entry carrying no opaque JSON payloads at all. -/
def AffectedOpaqueFree (a : Affected) : Prop :=
  a.ecosystem_specific = none ∧ a.database_specific = none

/-- All optional fields of a `Vulnerability` absent. -/
def optionalsAbsent (v : Vulnerability) : Prop :=
  v.withdrawn = none ∧ v.aliases = none ∧ v.related = none ∧
  v.summary = none ∧ v.details = none ∧ v.references = none ∧
  v.severity = none ∧ v.credits = none ∧ v.database_specific = none

/-- The wire keys of the optional `Vulnerability` fields. -/
def optionalKeys : List String :=
  ["withdrawn", "aliases", "related", "summary", "details", "references",
   "severity", "credits", "database_specific"]

/-- Every object key that can structurally appear in the encoding of a
`Vulnerability` whose optional fields are absent and whose `Affected`
entries carry no opaque payloads. -/
def structuralKeys : List String :=
  ["schema_version", "id", "published", "modified", "affected", "package",
   "ranges", "versions", "name", "ecosystem", "purl", "type", "repo",
   "events", "introduced", "fixed", "limit", "url", "score", "contact"]

mutual

/-- Whether key `k` occurs as an object key anywhere in a JSON tree. -/
def jsonHasKey (k : String) : Json → Bool
  | .obj fs => fieldsHaveKey k fs
  | .arr xs => elemsHaveKey k xs
  | _ => false

/-- Whether key `k` occurs in a field list or any nested value. -/
def fieldsHaveKey (k : String) : List (String × Json) → Bool
  | [] => false
  | (k', v) :: fs => k = k' || jsonHasKey k v || fieldsHaveKey k fs

/-- Whether key `k` occurs anywhere inside a list of JSON values. -/
def elemsHaveKey (k : String) : List Json → Bool
  | [] => false
  | j :: js => jsonHasKey k j || elemsHaveKey k js

end

/-- A concrete timestamp used by concrete test values. -/
def tsSample : Timestamp := ⟨"2021-01-01T00:00:00Z"⟩

/-- A concrete `Vulnerability` with every optional field absent and no
affected entries (the shape of the source's `test_no_serialize_null_fields`
test value). -/
def vulnClean : Vulnerability :=
  ⟨"1.3.0", "OSV-2020-484", tsSample, tsSample, none, none, none, none,
   none, [], none, none, none, none⟩

/-- A concrete `Vulnerability` whose `database_specific` payload is the
literal JSON `null`. -/
def vulnNullPayload : Vulnerability :=
  ⟨"1.3.0", "OSV-2020-484", tsSample, tsSample, none, none, none, none,
   none, [], none, none, none, some .null⟩

/-- What `vulnNullPayload` decodes back to after encoding: the explicit
`null` payload comes back as an absent field. -/
def vulnNullRoundtripped : Vulnerability :=
  ⟨"1.3.0", "OSV-2020-484", tsSample, tsSample, none, none, none, none,
   none, [], none, none, none, none⟩

/-- A concrete `Affected` entry carrying a `database_specific` payload. -/
def affectedWithPayload : Affected :=
  ⟨⟨"pkg", .PyPI, none⟩, [], none, none, some (.num 1)⟩

/-- A concrete `Vulnerability` with all its own optional fields absent but
one affected entry that carries a `database_specific` payload. -/
def vulnNestedPayload : Vulnerability :=
  ⟨"1.3.0", "OSV-2020-484", tsSample, tsSample, none, none, none, none,
   none, [affectedWithPayload], none, none, none, none⟩

theorem jlookup_cons_ne (k key : String) (v : Json) (l : List (String × Json))
    (h : ¬ k = key) : jlookup ((k, v) :: l) key = jlookup l key := by
  simp [jlookup, h]

theorem jlookup_cons_self (k : String) (v : Json) (l : List (String × Json)) :
    jlookup ((k, v) :: l) k = some v := by
  simp [jlookup]

theorem jlookup_encOpt_ne (k key : String) (o : Option Json)
    (l : List (String × Json)) (h : ¬ k = key) :
    jlookup (encOpt k o ++ l) key = jlookup l key := by
  cases o <;> simp [encOpt, jlookup, h]

theorem jlookup_encOpt_tail_ne (k key : String) (o : Option Json)
    (h : ¬ k = key) : jlookup (encOpt k o) key = none := by
  cases o <;> simp [encOpt, jlookup, h]

theorem jlookup_encOpt_self (k : String) (o : Option Json)
    (l : List (String × Json)) (hl : jlookup l k = none) :
    jlookup (encOpt k o ++ l) k = o := by
  cases o <;> simp [encOpt, jlookup, hl]

theorem jlookup_encOpt_tail_self (k : String) (o : Option Json) :
    jlookup (encOpt k o) k = o := by
  cases o <;> simp [encOpt, jlookup]

theorem jlookup_encOpt_some (k : String) (j : Json)
    (l : List (String × Json)) : jlookup (encOpt k (some j) ++ l) k = some j := by
  simp [encOpt, jlookup]

theorem jlookup_encOpt_none (k : String) (l : List (String × Json)) :
    jlookup (encOpt k none ++ l) k = jlookup l k := by
  simp [encOpt]

theorem jlookup_encOpt_tail_some (k : String) (j : Json) :
    jlookup (encOpt k (some j)) k = some j := by
  simp [encOpt, jlookup]

theorem encodeTimestamp_isNull (t : Timestamp) :
    (encodeTimestamp t).isNull = false := rfl

theorem isNull_false_of_ne (x : Json) (h : x ≠ .null) : x.isNull = false := by
  cases x <;> simp_all [Json.isNull]

theorem encodeStrList_isNull (xs : List String) :
    (encodeStrList xs).isNull = false := rfl

theorem decodeEcosystem_encode (e : Ecosystem) :
    decodeEcosystem (encodeEcosystem e) = some e := by
  cases e <;> rfl

theorem decodeRangeType_encode (t : RangeType) :
    decodeRangeType (encodeRangeType t) = some t := by
  cases t <;> rfl

theorem decodeReferenceType_encode (t : ReferenceType) :
    decodeReferenceType (encodeReferenceType t) = some t := by
  cases t <;> rfl

theorem decodeSeverityType_encode (t : SeverityType) :
    decodeSeverityType (encodeSeverityType t) = some t := by
  cases t <;> rfl

theorem decodeEvent_encode (e : Event) :
    decodeEvent (encodeEvent e) = some e := by
  cases e <;> rfl

theorem decodeTimestamp_encode (t : Timestamp) :
    decodeTimestamp (encodeTimestamp t) = some t := by
  cases t
  rfl

theorem decElems_map (dec : Json → Option α) (enc : α → Json) (xs : List α)
    (h : ∀ x ∈ xs, dec (enc x) = some x) :
    decElems dec (xs.map enc) = some xs := by
  induction xs with
  | nil => rfl
  | cons x xs ih =>
    have hx : dec (enc x) = some x := h x (by simp)
    have hxs : decElems dec (xs.map enc) = some xs :=
      ih fun y hy => h y (by simp [hy])
    simp [decElems, hx, hxs]

theorem decArr_map (dec : Json → Option α) (enc : α → Json) (xs : List α)
    (h : ∀ x ∈ xs, dec (enc x) = some x) :
    decArr dec (.arr (xs.map enc)) = some xs := by
  simp [decArr, decElems_map dec enc xs h]

theorem decArr_encodeStrList (xs : List String) :
    decArr decStr (encodeStrList xs) = some xs := by
  simp [encodeStrList]
  exact decArr_map decStr Json.str xs (fun x _ => rfl)

theorem decodePackage_encode (p : Package) :
    decodePackage (encodePackage p) = some p := by
  obtain ⟨name, eco, purl⟩ := p
  cases purl <;>
    simp [decodePackage, encodePackage, reqField, optionalField, getField,
      encOpt, jlookup, decStr, decodeEcosystem_encode, Json.isNull]

theorem decodeRange_encode (r : Range) :
    decodeRange (encodeRange r) = some r := by
  obtain ⟨t, repo, events⟩ := r
  cases repo <;>
    simp [decodeRange, encodeRange, reqField, optionalField, getField,
      encOpt, jlookup, decStr, decodeRangeType_encode, Json.isNull,
      decArr_map decodeEvent encodeEvent events (fun e _ => decodeEvent_encode e)]

theorem decodeReference_encode (r : Reference) :
    decodeReference (encodeReference r) = some r := by
  obtain ⟨t, url⟩ := r
  simp [decodeReference, encodeReference, reqField, getField, jlookup,
    decStr, decodeReferenceType_encode]

theorem decodeSeverity_encode (s : Severity) :
    decodeSeverity (encodeSeverity s) = some s := by
  obtain ⟨t, score⟩ := s
  simp [decodeSeverity, encodeSeverity, reqField, getField, jlookup,
    decStr, decodeSeverityType_encode]

theorem decodeCredit_encode (c : Credit) :
    decodeCredit (encodeCredit c) = some c := by
  obtain ⟨name, contact⟩ := c
  simp [decodeCredit, encodeCredit, reqField, getField, jlookup, decStr,
    decArr_encodeStrList]

theorem decodeAffected_encode (a : Affected) (h : AffectedOk a) :
    decodeAffected (encodeAffected a) = some a := by
  obtain ⟨pkg, ranges, versions, eco, db⟩ := a
  obtain ⟨he, hd⟩ := h
  have hr : decArr decodeRange (.arr (ranges.map encodeRange)) = some ranges :=
    decArr_map decodeRange encodeRange ranges (fun r _ => decodeRange_encode r)
  cases versions <;> cases eco <;> cases db <;>
    simp_all [decodeAffected, encodeAffected, reqField, optionalField,
      getField, encOpt, jlookup, decodePackage_encode, decArr_encodeStrList,
      isNull_false_of_ne, encodeStrList_isNull]

theorem vuln_field_schema_version (v : Vulnerability) :
    reqField (encodeVulnerability v) "schema_version" decStr =
      some v.schema_version := by
  simp [encodeVulnerability, vulnerabilityFields, reqField, getField,
    jlookup, decStr]

theorem vuln_field_id (v : Vulnerability) :
    reqField (encodeVulnerability v) "id" decStr = some v.id := by
  simp [encodeVulnerability, vulnerabilityFields, reqField, getField,
    jlookup, decStr]

theorem vuln_field_published (v : Vulnerability) :
    reqField (encodeVulnerability v) "published" decodeTimestamp =
      some v.published := by
  simp [encodeVulnerability, vulnerabilityFields, reqField, getField,
    jlookup, decodeTimestamp_encode]

theorem vuln_field_modified (v : Vulnerability) :
    reqField (encodeVulnerability v) "modified" decodeTimestamp =
      some v.modified := by
  simp [encodeVulnerability, vulnerabilityFields, reqField, getField,
    jlookup, decodeTimestamp_encode]

theorem vuln_field_withdrawn (v : Vulnerability) :
    optionalField (encodeVulnerability v) "withdrawn" decodeTimestamp =
      some v.withdrawn := by
  cases h : v.withdrawn <;>
    simp [encodeVulnerability, vulnerabilityFields, optionalField, getField,
      jlookup, h, jlookup_encOpt_ne, jlookup_encOpt_tail_ne,
      jlookup_encOpt_some, jlookup_encOpt_none, encodeTimestamp_isNull,
      decodeTimestamp_encode]

theorem vuln_field_aliases (v : Vulnerability) :
    optionalField (encodeVulnerability v) "aliases" (decArr decStr) =
      some v.aliases := by
  cases h : v.aliases <;>
    simp [encodeVulnerability, vulnerabilityFields, optionalField, getField,
      jlookup, h, jlookup_encOpt_ne, jlookup_encOpt_tail_ne,
      jlookup_encOpt_some, jlookup_encOpt_none, encodeStrList_isNull,
      decArr_encodeStrList]

theorem vuln_field_related (v : Vulnerability) :
    optionalField (encodeVulnerability v) "related" (decArr decStr) =
      some v.related := by
  cases h : v.related <;>
    simp [encodeVulnerability, vulnerabilityFields, optionalField, getField,
      jlookup, h, jlookup_encOpt_ne, jlookup_encOpt_tail_ne,
      jlookup_encOpt_some, jlookup_encOpt_none, encodeStrList_isNull,
      decArr_encodeStrList]

theorem vuln_field_summary (v : Vulnerability) :
    optionalField (encodeVulnerability v) "summary" decStr =
      some v.summary := by
  cases h : v.summary <;>
    simp [encodeVulnerability, vulnerabilityFields, optionalField, getField,
      jlookup, h, jlookup_encOpt_ne, jlookup_encOpt_tail_ne,
      jlookup_encOpt_some, jlookup_encOpt_none, Json.isNull, decStr]

theorem vuln_field_details (v : Vulnerability) :
    optionalField (encodeVulnerability v) "details" decStr =
      some v.details := by
  cases h : v.details <;>
    simp [encodeVulnerability, vulnerabilityFields, optionalField, getField,
      jlookup, h, jlookup_encOpt_ne, jlookup_encOpt_tail_ne,
      jlookup_encOpt_some, jlookup_encOpt_none, Json.isNull, decStr]

theorem vuln_field_affected (v : Vulnerability)
    (h : ∀ a ∈ v.affected, AffectedOk a) :
    reqField (encodeVulnerability v) "affected" (decArr decodeAffected) =
      some v.affected := by
  have hr : decArr decodeAffected (.arr (v.affected.map encodeAffected)) =
      some v.affected :=
    decArr_map decodeAffected encodeAffected v.affected
      (fun a ha => decodeAffected_encode a (h a ha))
  simp [encodeVulnerability, vulnerabilityFields, reqField, getField,
    jlookup, jlookup_encOpt_ne, hr]

theorem vuln_field_references (v : Vulnerability) :
    optionalField (encodeVulnerability v) "references"
      (decArr decodeReference) = some v.references := by
  cases h : v.references with
  | none =>
    simp [encodeVulnerability, vulnerabilityFields, optionalField, getField,
      jlookup, h, jlookup_encOpt_ne, jlookup_encOpt_tail_ne,
      jlookup_encOpt_none]
  | some rs =>
    have hr : decArr decodeReference (.arr (rs.map encodeReference)) =
        some rs :=
      decArr_map decodeReference encodeReference rs
        (fun r _ => decodeReference_encode r)
    simp [encodeVulnerability, vulnerabilityFields, optionalField, getField,
      jlookup, h, jlookup_encOpt_ne, jlookup_encOpt_tail_ne,
      jlookup_encOpt_some, Json.isNull, hr]

theorem vuln_field_severity (v : Vulnerability) :
    optionalField (encodeVulnerability v) "severity"
      (decArr decodeSeverity) = some v.severity := by
  cases h : v.severity with
  | none =>
    simp [encodeVulnerability, vulnerabilityFields, optionalField, getField,
      jlookup, h, jlookup_encOpt_ne, jlookup_encOpt_tail_ne,
      jlookup_encOpt_none]
  | some ss =>
    have hr : decArr decodeSeverity (.arr (ss.map encodeSeverity)) =
        some ss :=
      decArr_map decodeSeverity encodeSeverity ss
        (fun s _ => decodeSeverity_encode s)
    simp [encodeVulnerability, vulnerabilityFields, optionalField, getField,
      jlookup, h, jlookup_encOpt_ne, jlookup_encOpt_tail_ne,
      jlookup_encOpt_some, Json.isNull, hr]

theorem vuln_field_credits (v : Vulnerability) :
    optionalField (encodeVulnerability v) "credits" (decArr decodeCredit) =
      some v.credits := by
  cases h : v.credits with
  | none =>
    simp [encodeVulnerability, vulnerabilityFields, optionalField, getField,
      jlookup, h, jlookup_encOpt_ne, jlookup_encOpt_tail_ne,
      jlookup_encOpt_none]
  | some cs =>
    have hr : decArr decodeCredit (.arr (cs.map encodeCredit)) = some cs :=
      decArr_map decodeCredit encodeCredit cs
        (fun c _ => decodeCredit_encode c)
    simp [encodeVulnerability, vulnerabilityFields, optionalField, getField,
      jlookup, h, jlookup_encOpt_ne, jlookup_encOpt_tail_ne,
      jlookup_encOpt_some, Json.isNull, hr]

theorem vuln_field_database_specific (v : Vulnerability)
    (h : v.database_specific ≠ some .null) :
    optionalField (encodeVulnerability v) "database_specific" some =
      some v.database_specific := by
  cases hd : v.database_specific with
  | none =>
    simp [encodeVulnerability, vulnerabilityFields, optionalField, getField,
      jlookup, hd, jlookup_encOpt_ne, jlookup_encOpt_tail_self,
      jlookup_encOpt_none]
  | some x =>
    rw [hd] at h
    have hx : x.isNull = false := isNull_false_of_ne x (by simp_all)
    simp [encodeVulnerability, vulnerabilityFields, optionalField, getField,
      jlookup, hd, jlookup_encOpt_ne, jlookup_encOpt_tail_some, hx]

theorem fieldsHaveKey_append (k : String) (l1 l2 : List (String × Json)) :
    fieldsHaveKey k (l1 ++ l2) =
      (fieldsHaveKey k l1 || fieldsHaveKey k l2) := by
  induction l1 with
  | nil => simp [fieldsHaveKey]
  | cons kv l ih =>
    obtain ⟨k', v⟩ := kv
    simp [fieldsHaveKey, ih, Bool.or_assoc]

theorem elemsHaveKey_map_false (k : String) (f : α → Json) (xs : List α)
    (h : ∀ x ∈ xs, jsonHasKey k (f x) = false) :
    elemsHaveKey k (xs.map f) = false := by
  induction xs with
  | nil => simp [elemsHaveKey]
  | cons x xs ih =>
    simp [elemsHaveKey, h x (by simp), ih fun y hy => h y (by simp [hy])]

theorem hasKey_str (k s : String) : jsonHasKey k (.str s) = false := by
  simp [jsonHasKey]

theorem hasKey_obj (k : String) (fs : List (String × Json)) :
    jsonHasKey k (.obj fs) = fieldsHaveKey k fs := by
  simp [jsonHasKey]

theorem hasKey_arr (k : String) (xs : List Json) :
    jsonHasKey k (.arr xs) = elemsHaveKey k xs := by
  simp [jsonHasKey]

theorem structural_ne (k : String) (h : k ∉ structuralKeys) :
    k ≠ "schema_version" ∧ k ≠ "id" ∧ k ≠ "published" ∧ k ≠ "modified" ∧
    k ≠ "affected" ∧ k ≠ "package" ∧ k ≠ "ranges" ∧ k ≠ "versions" ∧
    k ≠ "name" ∧ k ≠ "ecosystem" ∧ k ≠ "purl" ∧ k ≠ "type" ∧ k ≠ "repo" ∧
    k ≠ "events" ∧ k ≠ "introduced" ∧ k ≠ "fixed" ∧ k ≠ "limit" ∧
    k ≠ "url" ∧ k ≠ "score" ∧ k ≠ "contact" := by
  simpa [structuralKeys] using h

theorem hasKey_encodeTimestamp (k : String) (t : Timestamp) :
    jsonHasKey k (encodeTimestamp t) = false := by
  simp [encodeTimestamp, jsonHasKey]

theorem hasKey_encodeEcosystem (k : String) (e : Ecosystem) :
    jsonHasKey k (encodeEcosystem e) = false := by
  simp [encodeEcosystem, jsonHasKey]

theorem hasKey_encodeStrList (k : String) (xs : List String) :
    jsonHasKey k (encodeStrList xs) = false := by
  simp [encodeStrList, jsonHasKey]
  exact elemsHaveKey_map_false k Json.str xs (fun x _ => hasKey_str k x)

theorem hasKey_encodeEvent (k : String) (e : Event)
    (h : k ∉ structuralKeys) : jsonHasKey k (encodeEvent e) = false := by
  obtain ⟨q1, q2, q3, q4, q5, q6, q7, q8, q9, q10, q11, q12, q13, q14, q15,
    q16, q17, q18, q19, q20⟩ := structural_ne k h
  cases e <;>
    simp [encodeEvent, hasKey_obj, hasKey_arr, fieldsHaveKey, hasKey_str, q15, q16, q17]

theorem hasKey_encodePackage (k : String) (p : Package)
    (h : k ∉ structuralKeys) : jsonHasKey k (encodePackage p) = false := by
  obtain ⟨q1, q2, q3, q4, q5, q6, q7, q8, q9, q10, q11, q12, q13, q14, q15,
    q16, q17, q18, q19, q20⟩ := structural_ne k h
  cases hp : p.purl <;>
    simp [encodePackage, encOpt, hp, hasKey_obj, hasKey_arr, fieldsHaveKey,
      fieldsHaveKey_append, hasKey_str, hasKey_encodeEcosystem, q9, q10, q11]

theorem hasKey_encodeRange (k : String) (r : Range)
    (h : k ∉ structuralKeys) : jsonHasKey k (encodeRange r) = false := by
  obtain ⟨q1, q2, q3, q4, q5, q6, q7, q8, q9, q10, q11, q12, q13, q14, q15,
    q16, q17, q18, q19, q20⟩ := structural_ne k h
  have he : elemsHaveKey k (r.events.map encodeEvent) = false :=
    elemsHaveKey_map_false k encodeEvent r.events
      (fun e _ => hasKey_encodeEvent k e h)
  cases hrep : r.repo <;>
    simp [encodeRange, encOpt, hrep, hasKey_obj, hasKey_arr, fieldsHaveKey,
      fieldsHaveKey_append, hasKey_str, encodeRangeType, he, q12, q13, q14]

theorem hasKey_encodeReference (k : String) (r : Reference)
    (h : k ∉ structuralKeys) : jsonHasKey k (encodeReference r) = false := by
  obtain ⟨q1, q2, q3, q4, q5, q6, q7, q8, q9, q10, q11, q12, q13, q14, q15,
    q16, q17, q18, q19, q20⟩ := structural_ne k h
  simp [encodeReference, hasKey_obj, hasKey_arr, fieldsHaveKey, hasKey_str,
    encodeReferenceType, q12, q18]

theorem hasKey_encodeSeverity (k : String) (s : Severity)
    (h : k ∉ structuralKeys) : jsonHasKey k (encodeSeverity s) = false := by
  obtain ⟨q1, q2, q3, q4, q5, q6, q7, q8, q9, q10, q11, q12, q13, q14, q15,
    q16, q17, q18, q19, q20⟩ := structural_ne k h
  simp [encodeSeverity, hasKey_obj, hasKey_arr, fieldsHaveKey, hasKey_str,
    encodeSeverityType, q12, q19]

theorem hasKey_encodeCredit (k : String) (c : Credit)
    (h : k ∉ structuralKeys) : jsonHasKey k (encodeCredit c) = false := by
  obtain ⟨q1, q2, q3, q4, q5, q6, q7, q8, q9, q10, q11, q12, q13, q14, q15,
    q16, q17, q18, q19, q20⟩ := structural_ne k h
  simp [encodeCredit, hasKey_obj, hasKey_arr, fieldsHaveKey, hasKey_str,
    hasKey_encodeStrList, q9, q20]

theorem hasKey_encodeAffected (k : String) (a : Affected)
    (hfree : AffectedOpaqueFree a) (h : k ∉ structuralKeys) :
    jsonHasKey k (encodeAffected a) = false := by
  obtain ⟨q1, q2, q3, q4, q5, q6, q7, q8, q9, q10, q11, q12, q13, q14, q15,
    q16, q17, q18, q19, q20⟩ := structural_ne k h
  obtain ⟨he, hd⟩ := hfree
  have hr : elemsHaveKey k (a.ranges.map encodeRange) = false :=
    elemsHaveKey_map_false k encodeRange a.ranges
      (fun r _ => hasKey_encodeRange k r h)
  cases hv : a.versions <;>
    simp [encodeAffected, encOpt, hv, he, hd, hasKey_obj, hasKey_arr, fieldsHaveKey,
      fieldsHaveKey_append, hasKey_encodePackage k a.package h,
      hasKey_encodeStrList, hr, q6, q7, q8]

theorem hasKey_encodeVulnerability (k : String) (v : Vulnerability)
    (hopt : optionalsAbsent v) (hfree : ∀ a ∈ v.affected, AffectedOpaqueFree a)
    (h : k ∉ structuralKeys) :
    jsonHasKey k (encodeVulnerability v) = false := by
  obtain ⟨q1, q2, q3, q4, q5, q6, q7, q8, q9, q10, q11, q12, q13, q14, q15,
    q16, q17, q18, q19, q20⟩ := structural_ne k h
  obtain ⟨hw, ha, hrel, hs, hdet, href, hsev, hcred, hdb⟩ := hopt
  have haff : elemsHaveKey k (v.affected.map encodeAffected) = false :=
    elemsHaveKey_map_false k encodeAffected v.affected
      (fun a hma => hasKey_encodeAffected k a (hfree a hma) h)
  simp [encodeVulnerability, vulnerabilityFields, encOpt, hw, ha, hrel, hs,
    hdet, href, hsev, hcred, hdb, hasKey_obj, hasKey_arr, fieldsHaveKey,
    fieldsHaveKey_append, hasKey_str, hasKey_encodeTimestamp, haff,
    q1, q2, q3, q4, q5]

theorem decodeVulnerability_encode (v : Vulnerability)
    (h : VulnerabilityOk v) :
    decodeVulnerability (encodeVulnerability v) = some v := by
  rw [decodeVulnerability]
  rw [vuln_field_schema_version, vuln_field_id, vuln_field_published,
    vuln_field_modified, vuln_field_withdrawn, vuln_field_aliases,
    vuln_field_related, vuln_field_summary, vuln_field_details,
    vuln_field_affected v h.2, vuln_field_references, vuln_field_severity,
    vuln_field_credits, vuln_field_database_specific v h.1]
  rfl

theorem decodeEcosystemTag_notKnown (s : String)
    (h : s ∉ knownEcosystemTags) : decodeEcosystemTag s = none := by
  rw [decodeEcosystemTag, List.find?_eq_none]
  intro e he
  simp only [beq_iff_eq]
  intro htag
  exact h (htag ▸ List.mem_map_of_mem ecosystemTag he)

/-- Claim C1 is refuted on the code: the `Ecosystem` enum is a closed serde
enum, so deserializing a `Package` whose ecosystem field is the unknown
string "Cargo" fails outright instead of succeeding and preserving the
string. -/
theorem claim1_counterexample :
    decodePackage (.obj [("name", .str "a"), ("ecosystem", .str "Cargo")]) =
      none ∧ decodeEcosystemTag "Cargo" = none := ⟨rfl, rfl⟩

/-- Claim C1, amended: the `Ecosystem` enumeration is closed, not open. A
string outside the known tag set fails to deserialize (both as a bare
ecosystem tag and inside a `Package`), and each known tag round-trips
through encode/decode unchanged. -/
theorem claim1_ecosystem_closed (s : String) (h : s ∉ knownEcosystemTags) :
    decodeEcosystemTag s = none ∧
    decodePackage (.obj [("name", .str "a"), ("ecosystem", .str s)]) =
      none ∧
    ∀ e : Ecosystem, decodeEcosystem (encodeEcosystem e) = some e := by
  have htag : decodeEcosystemTag s = none := decodeEcosystemTag_notKnown s h
  refine ⟨htag, ?_, decodeEcosystem_encode⟩
  simp [decodePackage, reqField, getField, jlookup, decStr, decodeEcosystem,
    htag]

/-- Witness for C1's amended theorem at the concrete unknown tag "Cargo". -/
theorem claim1_witness :
    "Cargo" ∉ knownEcosystemTags ∧ decodeEcosystemTag "Cargo" = none :=
  ⟨by decide, (claim1_ecosystem_closed "Cargo" (by decide)).1⟩

/-- Claim C2: response discrimination is by key presence, not array length.
On any success (non-404) status, a body whose "vulns" key holds an array of
decodable vulnerability records yields `Ok(Some(list))` with exactly the
decoded array; the body `{}` yields `Ok(None)`; and `{"vulns": []}` yields
the present-but-empty `Ok(Some([]))`, not the no-result shape. -/
theorem claim2_response_by_key_presence (q : Request) (s : Nat)
    (h : s ≠ 404) (js : List Json) (vs : List Vulnerability)
    (hdec : decElems decodeVulnerability js = some vs) :
    query q ⟨s, .obj [("vulns", .arr js)]⟩ = .ok (some vs) ∧
    query q ⟨s, .obj []⟩ = .ok none ∧
    query q ⟨s, .obj [("vulns", .arr [])]⟩ = .ok (some []) := by
  refine ⟨?_, ?_, ?_⟩ <;>
    simp [query, h, decodeResponse, reqField, getField, jlookup, decArr,
      decElems, hdec]

/-- Witness for C2 at status 200 with a one-element vulnerability array,
the empty object, and an empty vulns array. -/
theorem claim2_witness :
    query (.CommitQuery "abc") ⟨200,
        .obj [("vulns", .arr [encodeVulnerability vulnClean])]⟩ =
      .ok (some [vulnClean]) ∧
    query (.CommitQuery "abc") ⟨200, .obj []⟩ = .ok none ∧
    query (.CommitQuery "abc") ⟨200, .obj [("vulns", .arr [])]⟩ =
      .ok (some []) :=
  claim2_response_by_key_presence (.CommitQuery "abc") 200 (by decide)
    [encodeVulnerability vulnClean] [vulnClean] rfl

/-- Claim C3 is refuted on the code: the body `{"vulns": "zzz"}` matches
neither the vulnerabilities shape nor the empty no-result object, yet
`query` silently maps it to `Ok(None)` instead of returning
`Err(SerializationError)`, because the untagged `NoResult(Value)` fallback
accepts any JSON value. -/
theorem claim3_counterexample :
    query (.CommitQuery "abc") ⟨200, .obj [("vulns", .str "zzz")]⟩ =
      .ok none ∧
    query (.CommitQuery "abc") ⟨200, .obj [("vulns", .str "zzz")]⟩ ≠
      .error .SerializationError := by
  have h1 : query (.CommitQuery "abc") ⟨200, .obj [("vulns", .str "zzz")]⟩ =
      .ok none := rfl
  refine ⟨h1, ?_⟩
  rw [h1]
  simp

/-- Claim C3, amended: the `NoResult(serde_json::Value)` fallback accepts
every JSON value, so on a success status every well-formed JSON body that
does not decode as the vulnerabilities shape — unrecognized shapes
included — is silently mapped to `Ok(None)`; `SerializationError` is never
produced from a success-status JSON body. -/
theorem claim3_fallback_swallows (q : Request) (s : Nat) (h : s ≠ 404)
    (b : Json)
    (hnv : reqField b "vulns" (decArr decodeVulnerability) = none) :
    query q ⟨s, b⟩ = .ok none := by
  simp [query, h, decodeResponse, hnv]

/-- Witness for C3's amended theorem at status 200 with the unrecognized
body shape whose "vulns" key is a string. -/
theorem claim3_witness :
    query (.CommitQuery "c") ⟨200, .obj [("vulns", .str "zzz")]⟩ =
      .ok none :=
  claim3_fallback_swallows (.CommitQuery "c") 200 (by decide)
    (.obj [("vulns", .str "zzz")]) rfl

/-- Claim C4 is refuted on the code, in both halves, at explicit inputs:
(a) a `Vulnerability` whose `database_specific` payload is the literal JSON
`null` does not round-trip — serde serializes `Some(Value::Null)` as `null`
and deserializes that back to `None`; (b) a `Vulnerability` all of whose
own optional fields are absent can still contain the key
"database_specific" in its encoding, inside a nested `Affected` entry. -/
theorem claim4_counterexample :
    decodeVulnerability (encodeVulnerability vulnNullPayload) =
      some vulnNullRoundtripped ∧
    vulnNullRoundtripped ≠ vulnNullPayload ∧
    optionalsAbsent vulnNestedPayload ∧
    jsonHasKey "database_specific" (encodeVulnerability vulnNestedPayload) =
      true := by
  refine ⟨rfl, ?_, ?_, rfl⟩
  · intro hcontra
    simp [vulnNullRoundtripped, vulnNullPayload] at hcontra
  · refine ⟨rfl, rfl, rfl, rfl, rfl, rfl, rfl, rfl, rfl⟩

/-- Claim C4, amended: encoding then decoding yields an equal value for
every `Vulnerability` whose opaque JSON payloads (its own
`database_specific` and those of its `Affected` entries) are not the
literal JSON `null`; and for every `Vulnerability` whose optional fields
are absent and whose `Affected` entries carry no opaque payloads, the
encoding contains none of the optional-field keys anywhere — absent
optionals are omitted entirely, never emitted as null. -/
theorem claim4_roundtrip_amended (v : Vulnerability) :
    (VulnerabilityOk v →
      decodeVulnerability (encodeVulnerability v) = some v) ∧
    (optionalsAbsent v → (∀ a ∈ v.affected, AffectedOpaqueFree a) →
      ∀ k ∈ optionalKeys, jsonHasKey k (encodeVulnerability v) = false) := by
  refine ⟨decodeVulnerability_encode v, ?_⟩
  intro hopt hfree k hk
  have hks : ∀ k ∈ optionalKeys, k ∉ structuralKeys := by decide
  exact hasKey_encodeVulnerability k v hopt hfree (hks k hk)

/-- Witness for C4's amended theorem at the concrete all-absent value. -/
theorem claim4_witness :
    decodeVulnerability (encodeVulnerability vulnClean) = some vulnClean ∧
    jsonHasKey "withdrawn" (encodeVulnerability vulnClean) = false :=
  ⟨(claim4_roundtrip_amended vulnClean).1 ⟨by simp [vulnClean], by simp [vulnClean]⟩,
   (claim4_roundtrip_amended vulnClean).2
     ⟨rfl, rfl, rfl, rfl, rfl, rfl, rfl, rfl, rfl⟩
     (by simp [vulnClean]) "withdrawn" (by decide)⟩

/-- Claim C5: enum tag serialization is bit-exact — `RangeType::Git`
encodes as "GIT", `SeverityType::CVSSv3` as "CVSS_V3",
`ReferenceType::Undefined` as "NONE", and every `Event` variant as a
single-key object keyed by the lower-case variant name holding the carried
string. -/
theorem claim5_tag_fidelity :
    encodeRangeType .Git = .str "GIT" ∧
    encodeSeverityType .CVSSv3 = .str "CVSS_V3" ∧
    encodeReferenceType .Undefined = .str "NONE" ∧
    (∀ s, encodeEvent (.Introduced s) = .obj [("introduced", .str s)]) ∧
    (∀ s, encodeEvent (.Fixed s) = .obj [("fixed", .str s)]) ∧
    (∀ s, encodeEvent (.Limit s) = .obj [("limit", .str s)]) :=
  ⟨rfl, rfl, rfl, fun _ => rfl, fun _ => rfl, fun _ => rfl⟩

/-- Claim C6: `Request` serializes untagged with no discriminator key —
`CommitQuery{commit}` is exactly `{"commit": c}`, `PackageQuery` is exactly
`{"version": v, "package": {...}}`, and the nested package object omits the
"purl" key whenever `purl` is absent. -/
theorem claim6_request_untagged (c v name : String) (eco : Ecosystem)
    (p : Package) :
    encodeRequest (.CommitQuery c) = .obj [("commit", .str c)] ∧
    encodeRequest (.PackageQuery v p) =
      .obj [("version", .str v), ("package", encodePackage p)] ∧
    encodeRequest (.PackageQuery v ⟨name, eco, none⟩) =
      .obj [("version", .str v),
            ("package", .obj [("name", .str name),
                              ("ecosystem", encodeEcosystem eco)])] :=
  ⟨rfl, rfl, rfl⟩

/-- Claim C7: a 404 transport status makes `query` return `Err(NotFound)`
whose message is exactly "package - " plus the backtick-quoted package name
for a `PackageQuery` (independent of the caller-supplied version) or
"commit - " plus the backtick-quoted commit hash for a `CommitQuery`; the
result does not depend on the body, so no body decoding happens on this
path. -/
theorem claim7_notfound_short_circuit (q : Request) (b b' : Json) :
    query q ⟨404, b⟩ = .error (.NotFound (notFoundIdent q)) ∧
    query q ⟨404, b⟩ = query q ⟨404, b'⟩ ∧
    (∀ ver pkg, notFoundIdent (.PackageQuery ver pkg) =
      "package - `" ++ pkg.name ++ "`") ∧
    (∀ ver ver' pkg, notFoundIdent (.PackageQuery ver pkg) =
      notFoundIdent (.PackageQuery ver' pkg)) ∧
    (∀ c, notFoundIdent (.CommitQuery c) = "commit - `" ++ c ++ "`") :=
  ⟨rfl, rfl, fun _ _ => rfl, fun _ _ _ => rfl, fun _ => rfl⟩

/-- Claim C8: `vulnerability(id)` maps a 404 status to `Err(NotFound(id))`
carrying exactly the requested id; a success status with a body decoding
as a `Vulnerability` to `Ok` of that value; and every other failure to its
typed error — `RequestFailed` for transport failures and undecodable
bodies (surf reports body-decode failures through its own error type),
`InvalidUrl` when the id cannot be joined to the base path. -/
theorem claim8_vulnerability_contract (vid : String) (s : Nat) (b : Json)
    (w : Vulnerability) (hs : s ≠ 404) :
    vulnerability vid (.response 404 b) = .error (.NotFound vid) ∧
    (decodeVulnerability b = some w →
      vulnerability vid (.response s b) = .ok w) ∧
    (decodeVulnerability b = none →
      vulnerability vid (.response s b) = .error .RequestFailed) ∧
    vulnerability vid .transportFailed = .error .RequestFailed ∧
    vulnerability vid .urlJoinFailed = .error .InvalidUrl := by
  refine ⟨rfl, ?_, ?_, rfl, rfl⟩ <;> intro hb <;> simp [vulnerability, hs, hb]

/-- Witness for C8 at the id "OSV-2020-484", status 200 and the encoding
of a concrete vulnerability. -/
theorem claim8_witness :
    vulnerability "OSV-2020-484"
        (.response 200 (encodeVulnerability vulnClean)) = .ok vulnClean ∧
    vulnerability "OSV-2020-484"
        (.response 404 (encodeVulnerability vulnClean)) =
      .error (.NotFound "OSV-2020-484") :=
  ⟨(claim8_vulnerability_contract "OSV-2020-484" 200
      (encodeVulnerability vulnClean) vulnClean (by decide)).2.1 rfl,
   (claim8_vulnerability_contract "OSV-2020-484" 200
      (encodeVulnerability vulnClean) vulnClean (by decide)).1⟩

/-- Claim C9: `query_package(name, version, ecosystem)` returns exactly the
result of `query` on `PackageQuery{version, package: Package{name,
ecosystem, purl: None}}`, and `query_commit(c)` returns exactly the result
of `query` on `CommitQuery{commit: c}`, on every transport response. -/
theorem claim9_wrappers_delegate (name version commit : String)
    (eco : Ecosystem) (resp : HttpResponse) :
    query_package name version eco resp =
      query (.PackageQuery version ⟨name, eco, none⟩) resp ∧
    query_commit commit resp = query (.CommitQuery commit) resp :=
  ⟨rfl, rfl⟩

/-- Claim C10: `query` treats every status other than 404 identically —
for any two non-404 statuses the result is the same on the same body, and
a non-404 status (e.g. 500) with body `{}` yields `Ok(None)` rather than
an error. -/
theorem claim10_status_insensitive (q : Request) (s s' : Nat) (b : Json)
    (h : s ≠ 404) (h' : s' ≠ 404) :
    query q ⟨s, b⟩ = query q ⟨s', b⟩ ∧
    query q ⟨s, Json.obj []⟩ = .ok none := by
  constructor
  · simp [query, h, h']
  · simp [query, h, decodeResponse, reqField, getField, jlookup]

/-- Witness for C10 at the non-success status 500 with body the empty
object. -/
theorem claim10_witness :
    query (.CommitQuery "deadbeef") ⟨500, .obj []⟩ = .ok none :=
  (claim10_status_insensitive (.CommitQuery "deadbeef") 500 200 (.obj [])
    (by decide) (by decide)).2

end Osv
